import Mathlib

/-!
Verification development for the medical-consultation application
(`app_v4.py`, `audio_processor.py`, `model.py`).

Python strings are shallowly embedded as `List Char`; the Python string
operations used by the source (`lower`, `split('.')`, `strip()`, `join`,
substring containment via `in`, `replace`, `endswith`, `os.path.splitext`)
are given executable Lean definitions mirroring their semantics on the
ASCII text this application handles.
-/

/-- Python strings are modelled as lists of characters. -/
abbrev Str := List Char

/-- Character data of a Lean string literal, used to write `Str` constants. -/
def strL (s : String) : Str := s.data

/-- ASCII lower-casing of one character, as Python `str.lower` acts on the
ASCII text this application processes (non-ASCII code points are unchanged
in this model). -/
def chLower : Char → Char
  | 'A' => 'a' | 'B' => 'b' | 'C' => 'c' | 'D' => 'd' | 'E' => 'e'
  | 'F' => 'f' | 'G' => 'g' | 'H' => 'h' | 'I' => 'i' | 'J' => 'j'
  | 'K' => 'k' | 'L' => 'l' | 'M' => 'm' | 'N' => 'n' | 'O' => 'o'
  | 'P' => 'p' | 'Q' => 'q' | 'R' => 'r' | 'S' => 's' | 'T' => 't'
  | 'U' => 'u' | 'V' => 'v' | 'W' => 'w' | 'X' => 'x' | 'Y' => 'y'
  | 'Z' => 'z'
  | c => c

/-- Python `s.lower()`. -/
def pyLower (s : Str) : Str := s.map chLower

/-- Leading-substring test: `pyPre k s` holds when `k` begins `s`. -/
def pyPre : Str → Str → Bool
  | [], _ => true
  | _ :: _, [] => false
  | a :: as, b :: bs => a == b && pyPre as bs

/-- Python substring containment `needle in hay`. -/
def pyIn (needle : Str) : Str → Bool
  | [] => needle.isEmpty
  | c :: t => pyPre needle (c :: t) || pyIn needle t

/-- Python `text.split('.')`: split on every period, keeping empty pieces;
the result is always non-empty. -/
def pySplitDot : Str → List Str
  | [] => [[]]
  | c :: t =>
      let r := pySplitDot t
      if c = '.' then [] :: r
      else (c :: r.headD []) :: r.tail

/-- Python `s.strip()`: drop leading and trailing whitespace. -/
def pyStrip (s : Str) : Str :=
  ((s.dropWhile Char.isWhitespace).reverse.dropWhile Char.isWhitespace).reverse

/-- Python `sep.join(xs)`. -/
def pyJoin (sep : Str) : List Str → Str
  | [] => []
  | [x] => x
  | x :: xs => x ++ sep ++ pyJoin sep xs

/-- Fuel-indexed worker for `pyReplace`; the fuel is always at least the
length of the subject string, so the fuel-exhausted branch is never taken
in `pyReplace`. -/
def pyReplaceF : Nat → Str → Str → Str → Str
  | _, s, [], _ => s
  | 0, s, _ :: _, _ => s
  | fuel + 1, s, o :: os, new =>
      match s with
      | [] => []
      | c :: t =>
          if pyPre (o :: os) (c :: t)
          then new ++ pyReplaceF fuel (t.drop os.length) (o :: os) new
          else c :: pyReplaceF fuel t (o :: os) new

/-- Python `s.replace(old, new)` for non-empty `old` (the source only ever
replaces non-empty file extensions). -/
def pyReplace (s old new : Str) : Str := pyReplaceF s.length s old new

/-- Python `s.endswith(suffix)`. -/
def pyEndsWith (s suffixStr : Str) : Bool := pyPre suffixStr.reverse s.reverse

/-- Index of the last occurrence of `c` in `s`, mirroring Python `str.rfind`
(`none` standing for -1). -/
def lastIdxOf (c : Char) (s : Str) : Option Nat :=
  match s.reverse.findIdx? (fun x => x == c) with
  | none => none
  | some i => some (s.length - 1 - i)

/-- Extension component of `os.path.splitext(p)`: the suffix from the last
dot, provided that dot lies after the last path separator and the final
path component has a non-dot character before it (posixpath semantics). -/
def pySplitextExt (p : Str) : Str :=
  match lastIdxOf '.' p with
  | none => []
  | some d =>
    let sepIdx : Int :=
      match lastIdxOf '/' p with
      | none => -1
      | some i => (i : Int)
    if decide (sepIdx < (d : Int)) &&
       (List.range d).any (fun j => decide (sepIdx < (j : Int)) && (p.getD j ' ' != '.'))
    then p.drop d
    else []

-- ---------------------------------------------------------------------
-- Field auto-fill extractor (`app_v4.py`, `auto_fill_fields`, lines 51-104)
-- ---------------------------------------------------------------------

/-- The `complaint_mapping` dict of `auto_fill_fields` (insertion order). -/
def complaint_mapping : List (Str × Str) :=
  [ (strL "chest pain", strL "Patient presents with complaint of chest pain"),
    (strL "headache", strL "Patient presents with complaint of headache"),
    (strL "abdominal pain", strL "Patient presents with complaint of abdominal pain"),
    (strL "shortness of breath", strL "Patient presents with complaint of shortness of breath"),
    (strL "nausea", strL "Patient presents with complaint of nausea"),
    (strL "vomiting", strL "Patient presents with complaint of vomiting"),
    (strL "fever", strL "Patient presents with complaint of fever"),
    (strL "cough", strL "Patient presents with complaint of cough") ]

/-- `medication_keywords` of `auto_fill_fields`. -/
def medication_keywords : List Str :=
  [strL "taking", strL "prescribed", strL "medication", strL "pills",
   strL "tablets", strL "drug"]

/-- `allergy_keywords` of `auto_fill_fields`. -/
def allergy_keywords : List Str :=
  [strL "allergic", strL "allergy", strL "allergies", strL "reaction"]

/-- `history_keywords` of `auto_fill_fields`. -/
def history_keywords : List Str :=
  [strL "history", strL "previous", strL "past", strL "before", strL "earlier"]

/-- The sentence-comprehension shared by the three category rules:
`[s.strip() for s in text.split('.') if any(k in s.lower() for k in kws)]`. -/
def keywordSentences (keywords : List Str) (text : Str) : List Str :=
  ((pySplitDot text).filter
      (fun s => keywords.any (fun k => pyIn k (pyLower s)))).map pyStrip

/-- One category rule of `auto_fill_fields` (lines 76-98): if any keyword
occurs in the lowered text, join the stripped matching sentences with
`". "`; assign only when the kept list is non-empty. -/
def categoryField (keywords : List Str) (text text_lower : Str) : Option Str :=
  if keywords.any (fun k => pyIn k text_lower) then
    let ss := keywordSentences keywords text
    if ss.isEmpty then none else some (pyJoin (strL ". ") ss)
  else none

/-- The dict returned by `auto_fill_fields`; a `none` field models an
absent key. -/
structure AutoFill where
  reason_for_consultation : Option Str
  current_medications : Option Str
  allergies : Option Str
  past_medical_history : Option Str
  hpi : Option Str
deriving DecidableEq

/-- Python truthiness of `fields.get(key)`: absent keys and empty strings
are falsy. -/
def optTruthy : Option Str → Bool
  | none => false
  | some s => !s.isEmpty

/-- Chief-complaint rule (lines 70-74): first matching complaint phrase
wins, scanning in dict order. -/
def reasonField (t : Str) : Option Str :=
  (complaint_mapping.find? (fun p => pyIn p.1 (pyLower t))).map (fun p => p.2)

/-- Medication rule of `auto_fill_fields` (lines 76-82). -/
def medsField (t : Str) : Option Str :=
  categoryField medication_keywords t (pyLower t)

/-- Allergy rule of `auto_fill_fields` (lines 84-90). -/
def allergiesField (t : Str) : Option Str :=
  categoryField allergy_keywords t (pyLower t)

/-- History rule of `auto_fill_fields` (lines 92-98). -/
def historyField (t : Str) : Option Str :=
  categoryField history_keywords t (pyLower t)

/-- HPI fallback (lines 100-102): assigned exactly when none of the four
specific fields holds a truthy value. -/
def hpiField (t : Str) : Option Str :=
  if optTruthy (reasonField t) || optTruthy (medsField t) ||
     optTruthy (allergiesField t) || optTruthy (historyField t)
  then none else some t

/-- `auto_fill_fields(transcribed_text)` from `app_v4.py`. -/
def auto_fill_fields (t : Str) : AutoFill :=
  ⟨reasonField t, medsField t, allergiesField t, historyField t, hpiField t⟩

-- ---------------------------------------------------------------------
-- Audio transcription service (`audio_processor.py`)
-- ---------------------------------------------------------------------

/-- Outcome of a Python call: normal return or a raised exception carrying
its `str(e)` message. -/
inductive PyResult (α : Type) where
  | ok (val : α)
  | exn (msg : Str)
deriving DecidableEq

/-- Raw value returned by `whisper_model.transcribe` (lines 142-158): text,
an optional detected language, and segment triples (start, end, text). -/
structure WhisperOut where
  text : Str
  language : Option Str
  segments : List (Rat × Rat × Str)

/-- Outcome of `recognizer.recognize_google` (lines 198-205). -/
inductive GoogleOutcome where
  | success (text : Str)
  | unknownValue
  | requestError
  | fault (msg : Str)
deriving DecidableEq

/-- Outcome of `recognizer.recognize_sphinx` (lines 207-214); the bare
`except` makes every failure one case. -/
inductive SphinxOutcome where
  | success (text : Str)
  | failure
deriving DecidableEq

/-- Environment of one `EnhancedAudioProcessor` call: the processor state
and the outcomes of each external collaborator it may invoke.
`use_whisper` models `self.use_whisper and self.whisper_model`;
`audioDuration` models `_get_audio_duration` (total, returning 0.0 on any
read failure, lines 400-407); `tmpName` is the stem `tempfile` picks, to
which the requested suffix is appended. -/
structure AudioEnv where
  use_whisper : Bool
  model_size : Str
  microphone_available : Bool
  whisper : PyResult WhisperOut
  convert : PyResult Unit
  convertEnhanced : PyResult Unit
  loadAudio : PyResult Unit
  google : GoogleOutcome
  sphinx : SphinxOutcome
  pyaudioInit : PyResult Unit
  record : PyResult Unit
  audioDuration : Str → Rat
  tmpName : Str

/-- The transcription-result dict; `error = none` models an absent
`'error'` key. -/
structure TranscriptionResult where
  text : Str
  language : Str
  segments : List (Rat × Rat × Str)
  confidence : Rat
  duration : Rat
  model_used : Str
  error : Option Str

/-- The filesystem, as the set of existing paths. -/
abbrev FS := List Str

/-- `os.path.exists`. -/
def fsContains (fs : FS) (p : Str) : Bool := fs.any (fun q => q == p)

/-- File creation. -/
def fsCreate (p : Str) (fs : FS) : FS := p :: fs

/-- `os.unlink`. -/
def fsUnlink (p : Str) (fs : FS) : FS := fs.filter (fun q => !(q == p))

/-- The cleanup idiom `if os.path.exists(p): os.unlink(p)`. -/
def fsUnlinkIfExists (p : Str) (fs : FS) : FS :=
  if fsContains fs p then fsUnlink p fs else fs

/-- `self.supported_formats` (line 56). -/
def supported_formats : List Str :=
  [strL ".wav", strL ".mp3", strL ".m4a", strL ".flac", strL ".ogg",
   strL ".mp4", strL ".avi", strL ".mov", strL ".webm"]

/-- Local state of the recognition attempt in
`_transcribe_with_speech_recognition` (lines 193-214): recognized text,
confidence, and the local variable `model_used`, which stays unassigned
(`none`) on the `UnknownValueError` branch. -/
structure SRAttempt where
  text : Str
  confidence : Rat
  model_used : Option Str

/-- The conversion target path of line 185:
`audio_file_path.replace(os.path.splitext(audio_file_path)[1], '.wav')`. -/
def srConvertTarget (audio_file_path : Str) : Str :=
  pyReplace audio_file_path (pySplitextExt audio_file_path) (strL ".wav")

/-- Body of the `try` block of `_transcribe_with_speech_recognition`
(lines 179-230), threading the filesystem and propagating uncaught
exceptions. The dict construction of lines 220-227 reads the local
`model_used`, which raises an unbound-local error when no recognition
branch assigned it. -/
def transcribeWithSRBody (env : AudioEnv) (fs : FS) (audio_file_path language : Str) :
    PyResult TranscriptionResult × FS :=
  let needConvert : Bool := !(pyEndsWith (pyLower audio_file_path) (strL ".wav"))
  let wav_path := if needConvert then srConvertTarget audio_file_path else audio_file_path
  match (if needConvert then env.convert else PyResult.ok ()) with
  | PyResult.exn m => (PyResult.exn m, fs)
  | PyResult.ok () =>
    let fs1 := if needConvert then fsCreate wav_path fs else fs
    match env.loadAudio with
    | PyResult.exn m => (PyResult.exn m, fs1)
    | PyResult.ok () =>
      let att : PyResult SRAttempt :=
        match env.google with
        | GoogleOutcome.success t =>
            PyResult.ok (SRAttempt.mk t (85/100) (some (strL "google_sr")))
        | GoogleOutcome.unknownValue =>
            PyResult.ok (SRAttempt.mk (strL "Could not understand audio clearly") 0 none)
        | GoogleOutcome.requestError =>
            match env.sphinx with
            | SphinxOutcome.success t =>
                PyResult.ok (SRAttempt.mk t (70/100) (some (strL "sphinx_offline")))
            | SphinxOutcome.failure =>
                PyResult.ok (SRAttempt.mk (strL "Speech recognition service unavailable") 0
                  (some (strL "none")))
        | GoogleOutcome.fault m => PyResult.exn m
      match att with
      | PyResult.exn m => (PyResult.exn m, fs1)
      | PyResult.ok a =>
        let fs2 := if wav_path ≠ audio_file_path ∧ fsContains fs1 wav_path = true
                   then fsUnlink wav_path fs1 else fs1
        match a.model_used with
        | none => (PyResult.exn (strL "local variable model_used referenced before assignment"), fs2)
        | some mu =>
          (PyResult.ok
            { text := pyStrip a.text
              language := language
              segments := []
              confidence := a.confidence
              duration := env.audioDuration audio_file_path
              model_used := mu
              error := none }, fs2)

/-- `_transcribe_with_speech_recognition` (lines 177-242): the catch-all
`except` turns any exception from the body into an error result. -/
def transcribeWithSR (env : AudioEnv) (fs : FS) (audio_file_path language : Str) :
    TranscriptionResult × FS :=
  match transcribeWithSRBody env fs audio_file_path language with
  | (PyResult.ok r, fs2) => (r, fs2)
  | (PyResult.exn m, fs2) =>
    ({ text := strL "Speech recognition error: " ++ m
       language := language
       segments := []
       confidence := 0
       duration := 0
       model_used := strL "speech_recognition_error"
       error := some m }, fs2)

/-- `_transcribe_with_whisper` (lines 134-175): on success a fixed 0.95
confidence and the `whisper-<size>` tag; on any exception, fall back to
the speech-recognition path. -/
def transcribeWithWhisper (env : AudioEnv) (fs : FS) (audio_file_path language : Str) :
    TranscriptionResult × FS :=
  match env.whisper with
  | PyResult.ok w =>
    ({ text := pyStrip w.text
       language := w.language.getD language
       segments := w.segments.map (fun s => (s.1, s.2.1, pyStrip s.2.2))
       confidence := 95/100
       duration := env.audioDuration audio_file_path
       model_used := strL "whisper-" ++ env.model_size
       error := none }, fs)
  | PyResult.exn _ => transcribeWithSR env fs audio_file_path language

/-- `transcribe_audio` (lines 101-132): a missing file raises
`FileNotFoundError`, which the catch-all `except` converts into an error
result; otherwise dispatch on whisper availability. -/
def transcribe_audio (env : AudioEnv) (fs : FS) (audio_file_path language : Str) :
    TranscriptionResult × FS :=
  if fsContains fs audio_file_path = false then
    ({ text := strL "Error during transcription: " ++
         (strL "Audio file not found: " ++ audio_file_path)
       language := language
       segments := []
       confidence := 0
       duration := 0
       model_used := strL "error"
       error := some (strL "Audio file not found: " ++ audio_file_path) }, fs)
  else if env.use_whisper then transcribeWithWhisper env fs audio_file_path language
  else transcribeWithSR env fs audio_file_path language

/-- An uploaded file, carrying its client-side name (its bytes are opaque
to this model). -/
structure UploadedFile where
  name : Str

/-- `transcribe_uploaded_file` (lines 244-291): validate the extension,
write the bytes to a fresh temporary file, convert to WAV when needed,
transcribe, and in a `finally` clause unlink both candidate temporary
paths; the outer `except` converts any exception into an error result. -/
def transcribe_uploaded_file (env : AudioEnv) (fs : FS) (uploaded : UploadedFile) :
    TranscriptionResult × FS :=
  let ext := pyLower (pySplitextExt uploaded.name)
  if supported_formats.contains ext = false then
    ({ text := strL "Error processing uploaded file: " ++
         (strL "Unsupported file format: " ++ ext)
       language := strL "en"
       segments := []
       confidence := 0
       duration := 0
       model_used := strL "upload_error"
       error := some (strL "Unsupported file format: " ++ ext) }, fs)
  else
    let tmp_file_path := env.tmpName ++ ext
    let fs1 := fsCreate tmp_file_path fs
    let step : PyResult TranscriptionResult × FS :=
      if ext ≠ strL ".wav" then
        match env.convertEnhanced with
        | PyResult.exn m => (PyResult.exn m, fs1)
        | PyResult.ok () =>
          let wav_path := pyReplace tmp_file_path ext (strL ".wav")
          let fs2 := fsCreate wav_path fs1
          let rfs := transcribe_audio env fs2 wav_path (strL "en")
          (PyResult.ok rfs.1, rfs.2)
      else
        let rfs := transcribe_audio env fs1 tmp_file_path (strL "en")
        (PyResult.ok rfs.1, rfs.2)
    let fs3 := fsUnlinkIfExists (pyReplace tmp_file_path ext (strL ".wav"))
                 (fsUnlinkIfExists tmp_file_path step.2)
    match step.1 with
    | PyResult.ok r => (r, fs3)
    | PyResult.exn m =>
      ({ text := strL "Error processing uploaded file: " ++ m
         language := strL "en"
         segments := []
         confidence := 0
         duration := 0
         model_used := strL "upload_error"
         error := some m }, fs3)

/-- The error result built by the `except` clause of `record_and_transcribe`
(lines 360-370). -/
def recordingError (m : Str) : TranscriptionResult :=
  { text := strL "Recording error: " ++ m
    language := strL "en"
    segments := []
    confidence := 0
    duration := 0
    model_used := strL "recording_error"
    error := some m }

/-- `record_and_transcribe` (lines 293-370): no microphone gives an
immediate structured error; otherwise PyAudio is initialized, the
temporary WAV is created, the recording loop and WAV write run, and only
the transcription step is guarded by the `try`/`finally` that unlinks the
temporary file — a recording failure after the file is created leaves it
on disk. -/
def record_and_transcribe (env : AudioEnv) (fs : FS) : TranscriptionResult × FS :=
  if env.microphone_available = false then
    ({ text := strL "Microphone not available"
       language := strL "en"
       segments := []
       confidence := 0
       duration := 0
       model_used := strL "no_microphone"
       error := some (strL "Microphone not available") }, fs)
  else
    match env.pyaudioInit with
    | PyResult.exn m => (recordingError m, fs)
    | PyResult.ok () =>
      let tmp_file_path := env.tmpName ++ strL ".wav"
      let fs1 := fsCreate tmp_file_path fs
      match env.record with
      | PyResult.exn m => (recordingError m, fs1)
      | PyResult.ok () =>
        let rfs := transcribe_audio env fs1 tmp_file_path (strL "en")
        (rfs.1, fsUnlinkIfExists tmp_file_path rfs.2)

-- ---------------------------------------------------------------------
-- Report and code generation (`model.py`)
-- ---------------------------------------------------------------------

/-- The nineteen keyword arguments of `generate_consultation_report`
(lines 50-69). -/
structure ReportInputs where
  sample_name : Str
  description : Str
  date_of_visit : Str
  age : Str
  gender : Str
  reason_for_consultation : Str
  hpi : Str
  past_medical_history : Str
  past_surgical_history : Str
  home_medications : Str
  current_medications : Str
  allergies : Str
  review_of_systems : Str
  family_history : Str
  social_history : Str
  physical_exam : Str
  lab_results : Str
  imaging_findings : Str
  assessment_and_plan : Str

/-- The `inputs` dict built at lines 74-94, in insertion order. -/
def reportInputsDict (i : ReportInputs) : List (Str × Str) :=
  [ (strL "sample_name", i.sample_name),
    (strL "description", i.description),
    (strL "date_of_visit", i.date_of_visit),
    (strL "age", i.age),
    (strL "gender", i.gender),
    (strL "reason_for_consultation", i.reason_for_consultation),
    (strL "hpi", i.hpi),
    (strL "past_medical_history", i.past_medical_history),
    (strL "past_surgical_history", i.past_surgical_history),
    (strL "home_medications", i.home_medications),
    (strL "current_medications", i.current_medications),
    (strL "allergies", i.allergies),
    (strL "review_of_systems", i.review_of_systems),
    (strL "family_history", i.family_history),
    (strL "social_history", i.social_history),
    (strL "physical_exam", i.physical_exam),
    (strL "lab_results", i.lab_results),
    (strL "imaging_findings", i.imaging_findings),
    (strL "assessment_and_plan", i.assessment_and_plan) ]

/-- Environment of `model.py`: the LLM chain (`chain.invoke`), whether
`icd_chain` was initialized (`initialize_icd_chain` returned non-None),
and the ICD chain invocation (`icd_chain.invoke`). -/
structure ModelEnv where
  chain : List (Str × Str) → PyResult Str
  icdAvailable : Bool
  icdChain : Str → PyResult Str

/-- `generate_consultation_report` (lines 50-100): invoke the chain on the
inputs dict; any exception becomes the literal inline error string. -/
def generate_consultation_report (env : ModelEnv) (i : ReportInputs) : Str :=
  match env.chain (reportInputsDict i) with
  | PyResult.ok r => r
  | PyResult.exn m => strL "Error generating report: " ++ m

/-- `extract_icd_cpt_codes` (lines 115-125). -/
def extract_icd_cpt_codes (env : ModelEnv) (full_report_text : Str) : Str :=
  if env.icdAvailable = false then
    strL "ICD/CPT extraction not available - template file missing"
  else
    match env.icdChain full_report_text with
    | PyResult.ok r => r
    | PyResult.exn m => strL "Error extracting medical codes: " ++ m

-- ---------------------------------------------------------------------
-- JSON download document (`app_v4.py`, lines 500-516)
-- ---------------------------------------------------------------------

/-- A `datetime.date` value (the pydantic `date_of_visit` field). -/
structure PyDate where
  year : Nat
  month : Nat
  day : Nat
deriving DecidableEq

/-- Two-digit zero padding of a date component. -/
def pad2 (n : Nat) : Str := if n < 10 then '0' :: strL (toString n) else strL (toString n)

/-- Python `str(date)`: the ISO-8601 rendering `YYYY-MM-DD` (years of at
least four digits, as all dates this application handles). -/
def pyDateStr (d : PyDate) : Str :=
  strL (toString d.year) ++ strL "-" ++ pad2 d.month ++ strL "-" ++ pad2 d.day

/-- `PatientInfo` (`app_v4.py` lines 14-19); `age` is carried as the string
the UI stores in it. -/
structure PatientInfo where
  sample_name : Str
  description : Str
  date_of_visit : PyDate
  age : Str
  gender : Str

/-- `MedicalHistory` (`app_v4.py` lines 27-37). -/
structure MedicalHistory where
  reason_for_consultation : Str
  hpi : Str
  past_medical_history : Str
  past_surgical_history : Str
  home_medications : Str
  current_medications : Str
  allergies : Str
  review_of_systems : Str
  family_history : Str
  social_history : Str

/-- `ClinicalFindings` (`app_v4.py` lines 39-43). -/
structure ClinicalFindings where
  physical_exam : Str
  lab_results : Str
  imaging_findings : Str
  assessment_and_plan : Str

/-- JSON values, as far as the exported document needs them. -/
inductive JValue where
  | jstr (s : Str)
  | jobj (mems : List (Str × JValue))

/-- A field value of the live form state: every exported pydantic field is
a string except `date_of_visit`, which is a `date`. -/
inductive FieldValue where
  | str (s : Str)
  | date (d : PyDate)
deriving DecidableEq

/-- The `patient_info` member of the exported document: `.dict()` in field
order; `json.dumps(..., default=str)` renders the non-serializable `date`
through `str`, so `date_of_visit` is exported as its ISO string. -/
def patientInfoJson (p : PatientInfo) : JValue :=
  JValue.jobj
    [ (strL "sample_name", JValue.jstr p.sample_name),
      (strL "description", JValue.jstr p.description),
      (strL "date_of_visit", JValue.jstr (pyDateStr p.date_of_visit)),
      (strL "age", JValue.jstr p.age),
      (strL "gender", JValue.jstr p.gender) ]

/-- The `medical_history` member of the exported document. -/
def medicalHistoryJson (h : MedicalHistory) : JValue :=
  JValue.jobj
    [ (strL "reason_for_consultation", JValue.jstr h.reason_for_consultation),
      (strL "hpi", JValue.jstr h.hpi),
      (strL "past_medical_history", JValue.jstr h.past_medical_history),
      (strL "past_surgical_history", JValue.jstr h.past_surgical_history),
      (strL "home_medications", JValue.jstr h.home_medications),
      (strL "current_medications", JValue.jstr h.current_medications),
      (strL "allergies", JValue.jstr h.allergies),
      (strL "review_of_systems", JValue.jstr h.review_of_systems),
      (strL "family_history", JValue.jstr h.family_history),
      (strL "social_history", JValue.jstr h.social_history) ]

/-- The `clinical_findings` member of the exported document. -/
def clinicalFindingsJson (c : ClinicalFindings) : JValue :=
  JValue.jobj
    [ (strL "physical_exam", JValue.jstr c.physical_exam),
      (strL "lab_results", JValue.jstr c.lab_results),
      (strL "imaging_findings", JValue.jstr c.imaging_findings),
      (strL "assessment_and_plan", JValue.jstr c.assessment_and_plan) ]

/-- `full_report_data` (lines 500-507), the JSON document serialized by
`json.dumps(full_report_data, indent=2, default=str)` at line 510. The
`json` library's `dumps`/`loads` pair is an external collaborator and is
treated as the identity on this tree. -/
def full_report_data (p : PatientInfo) (h : MedicalHistory) (c : ClinicalFindings)
    (report codes timestamp : Str) : JValue :=
  JValue.jobj
    [ (strL "patient_info", patientInfoJson p),
      (strL "medical_history", medicalHistoryJson h),
      (strL "clinical_findings", clinicalFindingsJson c),
      (strL "generated_report", JValue.jstr report),
      (strL "medical_codes", JValue.jstr codes),
      (strL "generation_timestamp", JValue.jstr timestamp) ]

/-- Modelled from the spec: the repository contains no loader for the
exported JSON document, yet §8 asserts "Round-trip: exporting form state
to JSON and reloading it reproduces identical field values (ignoring the
timestamp field)". Reloading is modelled as what `json.loads` of the
dumped document yields: generic lookup of an object member by key. -/
def jGet (key : Str) : JValue → Option JValue
  | JValue.jobj mems => (mems.find? (fun q => q.1 == key)).map (fun q => q.2)
  | JValue.jstr _ => none

/-- Modelled from the spec: reading one form field back out of the reloaded
document, by section and field name. -/
def reloadField (doc : JValue) (sect field : Str) : Option JValue :=
  match jGet sect doc with
  | some sub => jGet field sub
  | none => none

/-- Modelled from the spec: the reloaded field as a form field value; JSON
strings reload as strings. -/
def reloadedFieldValue (doc : JValue) (sect field : Str) : Option FieldValue :=
  match reloadField doc sect field with
  | some (JValue.jstr s) => some (FieldValue.str s)
  | _ => none

-- ---------------------------------------------------------------------
-- Concrete environments used to evaluate the model on specific scenarios
-- ---------------------------------------------------------------------

/-- A baseline environment: whisper absent, all collaborators succeed. -/
def baseAudioEnv : AudioEnv :=
  { use_whisper := false
    model_size := strL "base"
    microphone_available := true
    whisper := PyResult.exn (strL "whisper not installed")
    convert := PyResult.ok ()
    convertEnhanced := PyResult.ok ()
    loadAudio := PyResult.ok ()
    google := GoogleOutcome.success (strL "hello world")
    sphinx := SphinxOutcome.success (strL "hello world")
    pyaudioInit := PyResult.ok ()
    record := PyResult.ok ()
    audioDuration := fun _ => 0
    tmpName := strL "/tmp/tmpaudio" }

/-- Scenario: networked recognizer unreachable, offline recognizer fails. -/
def envNetDown : AudioEnv :=
  { baseAudioEnv with google := GoogleOutcome.requestError, sphinx := SphinxOutcome.failure }

/-- Scenario: networked recognizer succeeds. -/
def envGoogleOk : AudioEnv := baseAudioEnv

/-- Scenario: the recording loop fails after the temporary file exists. -/
def envRecFail : AudioEnv :=
  { baseAudioEnv with record := PyResult.exn (strL "no default input device") }

/-- Scenario: an upload is transcribed end to end. -/
def envUpload : AudioEnv := baseAudioEnv

/-- Scenario: whisper loaded and succeeding. -/
def envWhisperOk : AudioEnv :=
  { baseAudioEnv with
      use_whisper := true
      whisper := PyResult.ok (WhisperOut.mk (strL "patient reports chest pain") none []) }

/-- Scenario: the LLM chain raises on both invocations. -/
def envModelDown : ModelEnv :=
  { chain := fun _ => PyResult.exn (strL "connection refused")
    icdAvailable := true
    icdChain := fun _ => PyResult.exn (strL "connection refused") }

/-- A report-inputs record with every field empty. -/
def emptyReportInputs : ReportInputs :=
  ⟨[], [], [], [], [], [], [], [], [], [], [], [], [], [], [], [], [], [], []⟩

-- ---------------------------------------------------------------------
-- Helper lemmas about the embedded string operations
-- ---------------------------------------------------------------------

theorem pyPre_refl (l : Str) : pyPre l l = true := by
  induction l with
  | nil => rfl
  | cons a t ih => simp [pyPre, ih]

theorem pyPre_append (l m : Str) : pyPre l (l ++ m) = true := by
  induction l with
  | nil => rfl
  | cons a t ih => simp [pyPre, ih]

theorem pyPre_mem {k h : Str} (hp : pyPre k h = true) : ∀ c ∈ k, c ∈ h := by
  induction k generalizing h with
  | nil => intro c hc; cases hc
  | cons a as ih =>
    cases h with
    | nil => simp [pyPre] at hp
    | cons b bs =>
      simp only [pyPre, Bool.and_eq_true, beq_iff_eq] at hp
      obtain ⟨hab, hrest⟩ := hp
      intro c hc
      rcases List.mem_cons.mp hc with rfl | hc'
      · exact List.mem_cons.mpr (Or.inl hab)
      · exact List.mem_cons.mpr (Or.inr (ih hrest c hc'))

theorem pyIn_mem {k u : Str} (hin : pyIn k u = true) : ∀ c ∈ k, c ∈ u := by
  induction u with
  | nil =>
    simp only [pyIn, List.isEmpty_iff] at hin
    subst hin
    intro c hc; cases hc
  | cons b bs ih =>
    simp only [pyIn, Bool.or_eq_true] at hin
    rcases hin with hp | hi
    · exact pyPre_mem hp
    · intro c hc; exact List.mem_cons_of_mem b (ih hi c hc)

theorem chLower_eq_dot {c : Char} (h : chLower c = '.') : c = '.' := by
  unfold chLower at h
  split at h <;> first | assumption | exact absurd h (by decide)

theorem chLower_isWhitespace {c : Char} (h : c.isWhitespace = true) :
    (chLower c).isWhitespace = true := by
  have h4 : ((c = ' ' ∨ c = '\t') ∨ c = '\x0d') ∨ c = '\n' := by
    simpa [Char.isWhitespace] using h
  rcases h4 with ((rfl | rfl) | rfl) | rfl <;> decide

theorem isWhitespace_of_chLower {c : Char} (h : (chLower c).isWhitespace = false) :
    c.isWhitespace = false := by
  cases hcb : c.isWhitespace with
  | false => rfl
  | true => simp [chLower_isWhitespace hcb] at h

theorem dropWhile_exists {p : Char → Bool} :
    ∀ {l : Str}, (∃ c ∈ l, p c = false) → ∃ c ∈ l.dropWhile p, p c = false := by
  intro l
  induction l with
  | nil => rintro ⟨c, hc, -⟩; cases hc
  | cons a t ih =>
    rintro ⟨c, hc, hpc⟩
    by_cases hpa : p a = true
    · rw [List.dropWhile_cons_of_pos hpa]
      apply ih
      rcases List.mem_cons.mp hc with rfl | hc'
      · exact absurd hpa (by simp [hpc])
      · exact ⟨c, hc', hpc⟩
    · rw [List.dropWhile_cons_of_neg hpa]
      exact ⟨a, List.mem_cons_self a t, by simpa using hpa⟩

theorem pyStrip_ne_nil {s : Str} (h : ∃ c ∈ s, c.isWhitespace = false) :
    pyStrip s ≠ [] := by
  unfold pyStrip
  obtain ⟨c, hc, hpc⟩ := dropWhile_exists h
  have hc2 : c ∈ (s.dropWhile Char.isWhitespace).reverse := List.mem_reverse.mpr hc
  obtain ⟨d, hd, -⟩ := dropWhile_exists ⟨c, hc2, hpc⟩
  intro hnil
  rw [List.reverse_eq_nil_iff] at hnil
  rw [hnil] at hd
  cases hd

theorem pyJoin_ne_nil (sep : Str) :
    ∀ {xs : List Str}, xs ≠ [] → (∀ x ∈ xs, x ≠ []) → pyJoin sep xs ≠ [] := by
  intro xs
  match xs with
  | [] => intro h _; exact absurd rfl h
  | [x] =>
    intro _ hx
    simpa [pyJoin] using hx x (by simp)
  | x :: y :: r =>
    intro _ hx
    have hxne : x ≠ [] := hx x (by simp)
    simp [pyJoin, hxne]

theorem pySplitDot_ne_nil (s : Str) : pySplitDot s ≠ [] := by
  cases s with
  | nil => simp [pySplitDot]
  | cons c t => by_cases hc : c = '.' <;> simp [pySplitDot, hc]

theorem pySplitDot_cons (s : Str) : ∃ h r, pySplitDot s = h :: r := by
  rcases hs : pySplitDot s with _ | ⟨h, r⟩
  · exact absurd hs (pySplitDot_ne_nil s)
  · exact ⟨h, r, rfl⟩

theorem pyPre_headSeg {k : Str} :
    ∀ {u : Str}, '.' ∉ k → pyPre k u = true →
      pyPre k ((pySplitDot u).headD []) = true := by
  induction k with
  | nil => intro u _ _; rfl
  | cons a as ih =>
    intro u hk hp
    cases u with
    | nil => simp [pyPre] at hp
    | cons b bs =>
      simp only [pyPre, Bool.and_eq_true, beq_iff_eq] at hp
      obtain ⟨rfl, hrest⟩ := hp
      have hadot : a ≠ '.' := fun hd => hk (hd ▸ List.mem_cons_self a as)
      obtain ⟨h0, r0, hsplit⟩ := pySplitDot_cons bs
      have hsp : pySplitDot (a :: bs) = (a :: h0) :: r0 := by
        simp [pySplitDot, hadot, hsplit]
      rw [hsp]
      simp only [List.headD_cons]
      have hih := ih (fun hm => hk (List.mem_cons_of_mem a hm)) hrest
      rw [hsplit] at hih
      simp only [List.headD_cons] at hih
      simp [pyPre, hih]

theorem pyIn_segment {k : Str} (hk : '.' ∉ k) :
    ∀ {u : Str}, pyIn k u = true → ∃ s ∈ pySplitDot u, pyIn k s = true := by
  intro u
  induction u with
  | nil =>
    intro hin
    simp only [pyIn, List.isEmpty_iff] at hin
    subst hin
    exact ⟨[], by simp [pySplitDot], rfl⟩
  | cons c t ih =>
    intro hin
    simp only [pyIn, Bool.or_eq_true] at hin
    obtain ⟨h0, r0, hsplit⟩ := pySplitDot_cons t
    by_cases hc : c = '.'
    · subst hc
      have hsp : pySplitDot ('.' :: t) = [] :: pySplitDot t := by simp [pySplitDot]
      rcases hin with hp | hi
      · cases k with
        | nil => exact ⟨[], by simp [hsp], rfl⟩
        | cons a as =>
          simp only [pyPre, Bool.and_eq_true, beq_iff_eq] at hp
          exact absurd (hp.1 ▸ List.mem_cons_self a as) hk
      · obtain ⟨s, hs, hks⟩ := ih hi
        exact ⟨s, by rw [hsp]; exact List.mem_cons_of_mem _ hs, hks⟩
    · have hsp : pySplitDot (c :: t) = (c :: h0) :: r0 := by
        simp [pySplitDot, hc, hsplit]
      rcases hin with hp | hi
      · have hhead := pyPre_headSeg hk hp
        rw [hsp] at hhead
        simp only [List.headD_cons] at hhead
        exact ⟨c :: h0, by rw [hsp]; exact List.mem_cons_self _ _, by simp [pyIn, hhead]⟩
      · obtain ⟨s, hs, hks⟩ := ih hi
        rw [hsplit] at hs
        rcases List.mem_cons.mp hs with rfl | hs'
        · exact ⟨c :: s, by rw [hsp]; exact List.mem_cons_self _ _, by simp [pyIn, hks]⟩
        · exact ⟨s, by rw [hsp]; exact List.mem_cons_of_mem _ hs', hks⟩

theorem pySplitDot_map_chLower (t : Str) :
    pySplitDot (pyLower t) = (pySplitDot t).map pyLower := by
  induction t with
  | nil => rfl
  | cons c u ih =>
    obtain ⟨h0, r0, hsplit⟩ := pySplitDot_cons u
    by_cases hc : c = '.'
    · subst hc
      have hdot : chLower '.' = '.' := rfl
      calc pySplitDot (pyLower ('.' :: u))
          = [] :: pySplitDot (pyLower u) := by simp [pyLower, pySplitDot, hdot]
        _ = [] :: (pySplitDot u).map pyLower := by rw [ih]
        _ = (pySplitDot ('.' :: u)).map pyLower := by simp [pySplitDot, pyLower]
    · have hcl : chLower c ≠ '.' := fun h => hc (chLower_eq_dot h)
      have hsp : pySplitDot (c :: u) = (c :: h0) :: r0 := by
        simp [pySplitDot, hc, hsplit]
      have hspL : pySplitDot (pyLower (c :: u)) =
          (chLower c :: pyLower h0) :: List.map pyLower r0 := by
        have hcons : pyLower (c :: u) = chLower c :: pyLower u := by simp [pyLower]
        rw [hcons]
        simp [pySplitDot, hcl, ih, hsplit]
      rw [hspL, hsp]
      simp [pyLower]

theorem keyword_in_some_sentence {k t : Str} (hk : '.' ∉ k)
    (hin : pyIn k (pyLower t) = true) :
    ∃ s ∈ pySplitDot t, pyIn k (pyLower s) = true := by
  obtain ⟨s', hs', hks'⟩ := pyIn_segment hk hin
  rw [pySplitDot_map_chLower] at hs'
  obtain ⟨s, hs, rfl⟩ := List.mem_map.mp hs'
  exact ⟨s, hs, hks'⟩

theorem pyReplaceF_nil (f : Nat) (o : Char) (os new : Str) :
    pyReplaceF f [] (o :: os) new = [] := by
  cases f <;> rfl

theorem pyReplace_append {r : Str} (new : Str) :
    ∀ (a : Str) (fuel : Nat), (a ++ '.' :: r).length ≤ fuel → '.' ∉ a →
      pyReplaceF fuel (a ++ '.' :: r) ('.' :: r) new = a ++ new := by
  intro a
  induction a with
  | nil =>
    intro fuel hf _
    cases fuel with
    | zero => simp at hf
    | succ f =>
      show pyReplaceF (f + 1) ('.' :: r) ('.' :: r) new = new
      simp only [pyReplaceF]
      rw [if_pos (pyPre_refl _)]
      rw [List.drop_length, pyReplaceF_nil, List.append_nil]
  | cons c a' ih =>
    intro fuel hf hc
    have hcd : c ≠ '.' := fun h => hc (h ▸ List.mem_cons_self c a')
    cases fuel with
    | zero => simp at hf
    | succ f =>
      have hf' : (a' ++ '.' :: r).length ≤ f := by
        simp only [List.cons_append, List.length_cons] at hf
        omega
      show pyReplaceF (f + 1) (c :: (a' ++ '.' :: r)) ('.' :: r) new = c :: (a' ++ new)
      simp only [pyReplaceF]
      rw [if_neg]
      · rw [ih f hf' (fun h => hc (List.mem_cons_of_mem c h))]
      · intro hcontra
        simp only [pyPre, Bool.and_eq_true, beq_iff_eq] at hcontra
        exact hcd hcontra.1.symm

theorem pyReplace_ext {a r : Str} (ha : '.' ∉ a) (new : Str) :
    pyReplace (a ++ '.' :: r) ('.' :: r) new = a ++ new :=
  pyReplace_append new a _ (Nat.le_refl _) ha

theorem pyEndsWith_append (a b : Str) : pyEndsWith (a ++ b) b = true := by
  unfold pyEndsWith
  rw [List.reverse_append]
  exact pyPre_append _ _

-- ---------------------------------------------------------------------
-- Lemmas about the auto-fill rules
-- ---------------------------------------------------------------------

theorem reasonField_ne_nil {t v : Str} (h : reasonField t = some v) : v ≠ [] := by
  unfold reasonField at h
  rcases hf : complaint_mapping.find? (fun p => pyIn p.1 (pyLower t)) with _ | p
  · rw [hf] at h; cases h
  · rw [hf] at h
    have hmem : p ∈ complaint_mapping := List.mem_of_find?_eq_some hf
    have hv : v = p.2 := by injection h with h2; exact h2.symm
    subst hv
    have hall : ∀ q ∈ complaint_mapping, q.2 ≠ [] := by decide
    exact hall p hmem

theorem categoryField_ne_nil {kws : List Str} {t v : Str}
    (hws : ∀ k ∈ kws, ∀ c ∈ k, c.isWhitespace = false)
    (hne : ∀ k ∈ kws, k ≠ [])
    (h : categoryField kws t (pyLower t) = some v) : v ≠ [] := by
  unfold categoryField at h
  by_cases hg : kws.any (fun k => pyIn k (pyLower t)) = true
  · rw [if_pos hg] at h
    by_cases hss : (keywordSentences kws t).isEmpty = true
    · rw [if_pos hss] at h; cases h
    · rw [if_neg hss] at h
      have hv : v = pyJoin (strL ". ") (keywordSentences kws t) := by
        injection h with h2; exact h2.symm
      subst hv
      apply pyJoin_ne_nil
      · intro hnil; rw [hnil] at hss; exact hss rfl
      · intro x hx
        unfold keywordSentences at hx
        obtain ⟨s, hs, rfl⟩ := List.mem_map.mp hx
        obtain ⟨hsmem, hpred⟩ := List.mem_filter.mp hs
        obtain ⟨k, hkmem, hkin⟩ := List.any_eq_true.mp hpred
        apply pyStrip_ne_nil
        cases k with
        | nil => exact absurd rfl (hne [] hkmem)
        | cons c0 kr =>
          have hc0mem : c0 ∈ pyLower s := pyIn_mem hkin c0 (List.mem_cons_self _ _)
          obtain ⟨c, hcs, hclow⟩ := List.mem_map.mp hc0mem
          have hc0ws : (chLower c).isWhitespace = false := by
            rw [hclow]; exact hws _ hkmem c0 (List.mem_cons_self _ _)
          exact ⟨c, hcs, isWhitespace_of_chLower hc0ws⟩
  · rw [if_neg hg] at h; cases h

theorem categoryField_of_any {kws : List Str} {t : Str}
    (hdot : ∀ k ∈ kws, '.' ∉ k)
    (hg : kws.any (fun k => pyIn k (pyLower t)) = true) :
    categoryField kws t (pyLower t) =
      some (pyJoin (strL ". ") (keywordSentences kws t)) := by
  have hne : ¬((keywordSentences kws t).isEmpty = true) := by
    intro hss
    obtain ⟨k, hkm, hkin⟩ := List.any_eq_true.mp hg
    obtain ⟨s, hsmem, hks⟩ := keyword_in_some_sentence (hdot k hkm) hkin
    have hmem : pyStrip s ∈ keywordSentences kws t := by
      unfold keywordSentences
      exact List.mem_map_of_mem _
        (List.mem_filter.mpr ⟨hsmem, List.any_eq_true.mpr ⟨k, hkm, hks⟩⟩)
    rw [List.isEmpty_iff.mp hss] at hmem
    cases hmem
  have hempty : (keywordSentences kws t).isEmpty = false := by
    cases hh : (keywordSentences kws t).isEmpty with
    | false => rfl
    | true => exact absurd hh hne
  simp [categoryField, hg, hempty]

-- ---------------------------------------------------------------------
-- Claim C4
-- ---------------------------------------------------------------------

/-- C4: for text in which no complaint phrase and no medication, allergy,
or history keyword occurs, `auto_fill_fields` assigns exactly the HPI
field, carrying the original text verbatim; and whenever any of the four
specific fields receives a value, the HPI field is not assigned. -/
theorem c4_hpi_fallback :
    (∀ t : Str,
      (∀ p ∈ complaint_mapping, pyIn p.1 (pyLower t) = false) →
      (∀ k ∈ medication_keywords, pyIn k (pyLower t) = false) →
      (∀ k ∈ allergy_keywords, pyIn k (pyLower t) = false) →
      (∀ k ∈ history_keywords, pyIn k (pyLower t) = false) →
      auto_fill_fields t = AutoFill.mk none none none none (some t)) ∧
    (∀ t : Str,
      ((auto_fill_fields t).reason_for_consultation ≠ none ∨
       (auto_fill_fields t).current_medications ≠ none ∨
       (auto_fill_fields t).allergies ≠ none ∨
       (auto_fill_fields t).past_medical_history ≠ none) →
      (auto_fill_fields t).hpi = none) := by
  constructor
  · intro t hc hm ha hh
    have hr : reasonField t = none := by
      unfold reasonField
      rw [List.find?_eq_none.mpr (fun p hp => by simp [hc p hp])]
      rfl
    have hcat : ∀ kws, (∀ k ∈ kws, pyIn k (pyLower t) = false) →
        categoryField kws t (pyLower t) = none := by
      intro kws hk
      have hany : kws.any (fun k => pyIn k (pyLower t)) = false := by
        rw [List.any_eq_false]
        intro k hkm
        simp [hk k hkm]
      simp [categoryField, hany]
    have hm2 : medsField t = none := hcat _ hm
    have ha2 : allergiesField t = none := hcat _ ha
    have hh2 : historyField t = none := hcat _ hh
    unfold auto_fill_fields
    rw [hr, hm2, ha2, hh2]
    simp [hpiField, hr, hm2, ha2, hh2, optTruthy]
  · intro t hor
    have key : (optTruthy (reasonField t) || optTruthy (medsField t) ||
        optTruthy (allergiesField t) || optTruthy (historyField t)) = true := by
      rcases hor with h | h | h | h
      · simp only [auto_fill_fields] at h
        obtain ⟨v, hv⟩ := Option.ne_none_iff_exists'.mp h
        have hvne := reasonField_ne_nil hv
        have hvE : v.isEmpty = false := by
          cases v with
          | nil => exact absurd rfl hvne
          | cons a l => rfl
        simp [optTruthy, hv, hvE]
      · simp only [auto_fill_fields] at h
        obtain ⟨v, hv⟩ := Option.ne_none_iff_exists'.mp h
        have hvne := categoryField_ne_nil (by decide) (by decide) hv
        have hvE : v.isEmpty = false := by
          cases v with
          | nil => exact absurd rfl hvne
          | cons a l => rfl
        simp [optTruthy, hv, hvE]
      · simp only [auto_fill_fields] at h
        obtain ⟨v, hv⟩ := Option.ne_none_iff_exists'.mp h
        have hvne := categoryField_ne_nil (by decide) (by decide) hv
        have hvE : v.isEmpty = false := by
          cases v with
          | nil => exact absurd rfl hvne
          | cons a l => rfl
        simp [optTruthy, hv, hvE]
      · simp only [auto_fill_fields] at h
        obtain ⟨v, hv⟩ := Option.ne_none_iff_exists'.mp h
        have hvne := categoryField_ne_nil (by decide) (by decide) hv
        have hvE : v.isEmpty = false := by
          cases v with
          | nil => exact absurd rfl hvne
          | cons a l => rfl
        simp [optTruthy, hv, hvE]
    simp [auto_fill_fields, hpiField, key]

/-- C4 witness: a keyword-free text fills only HPI, and a chest-pain text
does not fill HPI. -/
theorem c4_hpi_fallback_witness :
    auto_fill_fields (strL "feeling tired today") =
      AutoFill.mk none none none none (some (strL "feeling tired today")) ∧
    (auto_fill_fields (strL "i have chest pain")).hpi = none :=
  ⟨c4_hpi_fallback.1 (strL "feeling tired today") (by decide) (by decide) (by decide) (by decide),
   c4_hpi_fallback.2 (strL "i have chest pain") (Or.inl (by decide))⟩

-- ---------------------------------------------------------------------
-- Claim C5
-- ---------------------------------------------------------------------

theorem find?_first {α : Type} (p : α → Bool) :
    ∀ (l : List α) (i : Nat) (h : i < l.length),
      (∀ q ∈ l.take i, p q = false) → p (l.get ⟨i, h⟩) = true →
      l.find? p = some (l.get ⟨i, h⟩) := by
  intro l
  induction l with
  | nil => intro i h; exact absurd h (Nat.not_lt_zero i)
  | cons a t ih =>
    intro i h hb hp
    cases i with
    | zero =>
      have hp2 : p a = true := hp
      rw [List.find?_cons_of_pos _ hp2]
      rfl
    | succ i2 =>
      have ha : p a = false := hb a (by simp [List.take_succ_cons])
      rw [List.find?_cons_of_neg _ (by simp [ha])]
      exact ih i2 (Nat.lt_of_succ_lt_succ h)
        (fun q hq => hb q (by simp [List.take_succ_cons, hq])) hp

/-- C5: `auto_fill_fields` scans the complaint list in order and the first
phrase occurring in the lowered text determines `reason_for_consultation`
(first-match-wins, list order breaking ties); in particular any text
containing `"chest pain"` — the first listed phrase — yields the canned
chest-pain sentence. -/
theorem c5_first_match :
    (∀ (t : Str) (i : Nat) (h : i < complaint_mapping.length),
      (∀ q ∈ complaint_mapping.take i, pyIn q.1 (pyLower t) = false) →
      pyIn (complaint_mapping.get ⟨i, h⟩).1 (pyLower t) = true →
      (auto_fill_fields t).reason_for_consultation =
        some (complaint_mapping.get ⟨i, h⟩).2) ∧
    (∀ t : Str, pyIn (strL "chest pain") (pyLower t) = true →
      (auto_fill_fields t).reason_for_consultation =
        some (strL "Patient presents with complaint of chest pain")) := by
  constructor
  · intro t i h hb hp
    have hf := find?_first (fun p => pyIn p.1 (pyLower t)) complaint_mapping i h
      (fun q hq => hb q hq) hp
    simp [auto_fill_fields, reasonField, hf]
  · intro t hp
    have hf := find?_first (fun p => pyIn p.1 (pyLower t)) complaint_mapping 0 (by decide)
      (fun q hq => by simp [List.take] at hq) hp
    simp [auto_fill_fields, reasonField, hf]
    rfl

/-- C5 witness: a text containing "chest pain" receives the canned
chest-pain complaint. -/
theorem c5_first_match_witness :
    (auto_fill_fields (strL "he has chest pain")).reason_for_consultation =
      some (strL "Patient presents with complaint of chest pain") :=
  c5_first_match.2 (strL "he has chest pain") (by decide)

-- ---------------------------------------------------------------------
-- Claim C6
-- ---------------------------------------------------------------------

/-- C6 counterexample: on `" taking aspirin"` the assigned medications
value is not the kept sentences joined with `". "` — the code strips each
kept sentence first, so the claim as stated fails at this input. -/
theorem c6_unstripped_join_mismatch :
    (auto_fill_fields (strL " taking aspirin")).current_medications ≠
      some (pyJoin (strL ". ")
        ((pySplitDot (strL " taking aspirin")).filter
          (fun s => medication_keywords.any (fun k => pyIn k (pyLower s))))) := by
  decide

/-- C6 (amended): whenever a medication keyword occurs in the lowered text,
`current_medications` is exactly the matching sentences — each stripped of
surrounding whitespace — joined with `". "`; the allergy and history rules
behave identically and independently on their own keyword sets. -/
theorem c6_keyword_sentences :
    (∀ t : Str, medication_keywords.any (fun k => pyIn k (pyLower t)) = true →
      (auto_fill_fields t).current_medications =
        some (pyJoin (strL ". ") (keywordSentences medication_keywords t))) ∧
    (∀ t : Str, allergy_keywords.any (fun k => pyIn k (pyLower t)) = true →
      (auto_fill_fields t).allergies =
        some (pyJoin (strL ". ") (keywordSentences allergy_keywords t))) ∧
    (∀ t : Str, history_keywords.any (fun k => pyIn k (pyLower t)) = true →
      (auto_fill_fields t).past_medical_history =
        some (pyJoin (strL ". ") (keywordSentences history_keywords t))) := by
  refine ⟨fun t hg => ?_, fun t hg => ?_, fun t hg => ?_⟩
  · have hcf := @categoryField_of_any medication_keywords t (by decide) hg
    simpa [auto_fill_fields, medsField] using hcf
  · have hcf := @categoryField_of_any allergy_keywords t (by decide) hg
    simpa [auto_fill_fields, allergiesField] using hcf
  · have hcf := @categoryField_of_any history_keywords t (by decide) hg
    simpa [auto_fill_fields, historyField] using hcf

/-- C6 witness: a medication keyword and an allergy keyword in different
sentences set both fields, each holding only its own matching sentence. -/
theorem c6_keyword_sentences_witness :
    (auto_fill_fields
        (strL "He is taking aspirin. He is allergic to nuts.")).current_medications =
      some (strL "He is taking aspirin") ∧
    (auto_fill_fields
        (strL "He is taking aspirin. He is allergic to nuts.")).allergies =
      some (strL "He is allergic to nuts") := by
  constructor
  · rw [c6_keyword_sentences.1 _ (by decide)]
    decide
  · rw [c6_keyword_sentences.2.1 _ (by decide)]
    decide

-- ---------------------------------------------------------------------
-- Claim C10
-- ---------------------------------------------------------------------

/-- C10: every auto-fill rule fires on raw lowercase substring containment
with no word-boundary check — any occurrence of a keyword anywhere in the
lowered text, including inside a longer word, makes the corresponding
field assigned. -/
theorem c10_raw_substring_fire :
    (∀ t : Str, (∃ p ∈ complaint_mapping, pyIn p.1 (pyLower t) = true) →
      (auto_fill_fields t).reason_for_consultation ≠ none) ∧
    (∀ (t k : Str), k ∈ medication_keywords → pyIn k (pyLower t) = true →
      (auto_fill_fields t).current_medications ≠ none) ∧
    (∀ (t k : Str), k ∈ allergy_keywords → pyIn k (pyLower t) = true →
      (auto_fill_fields t).allergies ≠ none) ∧
    (∀ (t k : Str), k ∈ history_keywords → pyIn k (pyLower t) = true →
      (auto_fill_fields t).past_medical_history ≠ none) := by
  refine ⟨fun t hex => ?_, fun t k hkm hkin => ?_, fun t k hkm hkin => ?_,
    fun t k hkm hkin => ?_⟩
  · obtain ⟨p, hpm, hpin⟩ := hex
    have hsome : (complaint_mapping.find? (fun q => pyIn q.1 (pyLower t))).isSome := by
      rw [List.find?_isSome]
      exact ⟨p, hpm, hpin⟩
    obtain ⟨q, hq⟩ := Option.isSome_iff_exists.mp hsome
    simp [auto_fill_fields, reasonField, hq]
  · have hg : medication_keywords.any (fun k2 => pyIn k2 (pyLower t)) = true :=
      List.any_eq_true.mpr ⟨k, hkm, hkin⟩
    have hcf := categoryField_of_any (by decide) hg
    simp [auto_fill_fields, medsField, hcf]
  · have hg : allergy_keywords.any (fun k2 => pyIn k2 (pyLower t)) = true :=
      List.any_eq_true.mpr ⟨k, hkm, hkin⟩
    have hcf := categoryField_of_any (by decide) hg
    simp [auto_fill_fields, allergiesField, hcf]
  · have hg : history_keywords.any (fun k2 => pyIn k2 (pyLower t)) = true :=
      List.any_eq_true.mpr ⟨k, hkm, hkin⟩
    have hcf := categoryField_of_any (by decide) hg
    simp [auto_fill_fields, historyField, hcf]

/-- C10 witness: the history keyword `"past"` occurring inside the word
`"pasta"` still fires the past-medical-history rule. -/
theorem c10_raw_substring_fire_witness :
    (auto_fill_fields (strL "We ate pasta")).past_medical_history ≠ none :=
  c10_raw_substring_fire.2.2.2 (strL "We ate pasta") (strL "past") (by decide) (by decide)

-- ---------------------------------------------------------------------
-- Claim C2
-- ---------------------------------------------------------------------

/-- C2: in the fallback transcription path the confidence is
backend-specific and fixed — 0.85 with `google_sr` on networked success;
after a service-unavailable failure, 0.70 with `sphinx_offline` when the
offline engine succeeds, otherwise 0.0 with `none`; and when the audio is
not understood the result carries confidence 0.0 with a non-empty
diagnostic text. -/
theorem c2_fallback_confidences :
    ∀ (env : AudioEnv) (fs : FS) (path language : Str),
      pyEndsWith (pyLower path) (strL ".wav") = true →
      env.loadAudio = PyResult.ok () →
      ((∀ t, env.google = GoogleOutcome.success t →
          (transcribeWithSR env fs path language).1.confidence = 85/100 ∧
          (transcribeWithSR env fs path language).1.model_used = strL "google_sr") ∧
       (∀ t, env.google = GoogleOutcome.requestError →
          env.sphinx = SphinxOutcome.success t →
          (transcribeWithSR env fs path language).1.confidence = 70/100 ∧
          (transcribeWithSR env fs path language).1.model_used = strL "sphinx_offline") ∧
       (env.google = GoogleOutcome.requestError → env.sphinx = SphinxOutcome.failure →
          (transcribeWithSR env fs path language).1.confidence = 0 ∧
          (transcribeWithSR env fs path language).1.model_used = strL "none" ∧
          (transcribeWithSR env fs path language).1.text ≠ []) ∧
       (env.google = GoogleOutcome.unknownValue →
          (transcribeWithSR env fs path language).1.confidence = 0 ∧
          (transcribeWithSR env fs path language).1.text ≠ [])) := by
  intro env fs path language hEnd hLoad
  refine ⟨fun t hG => ?_, fun t hG hS => ?_, fun hG hS => ?_, fun hG => ?_⟩
  · simp [transcribeWithSR, transcribeWithSRBody, hEnd, hLoad, hG]
  · simp [transcribeWithSR, transcribeWithSRBody, hEnd, hLoad, hG, hS]
  · simp [transcribeWithSR, transcribeWithSRBody, hEnd, hLoad, hG, hS]
    decide
  · simp [transcribeWithSR, transcribeWithSRBody, hEnd, hLoad, hG]
    decide

/-- C2 witness: with the networked recognizer succeeding on a WAV file,
the result has confidence 0.85 and model `google_sr`. -/
theorem c2_fallback_confidences_witness :
    (transcribeWithSR envGoogleOk [] (strL "a.wav") (strL "en")).1.confidence = 85/100 ∧
    (transcribeWithSR envGoogleOk [] (strL "a.wav") (strL "en")).1.model_used =
      strL "google_sr" :=
  (c2_fallback_confidences envGoogleOk [] (strL "a.wav") (strL "en")
    (by decide) rfl).1 (strL "hello world") rfl

-- ---------------------------------------------------------------------
-- Claim C7
-- ---------------------------------------------------------------------

/-- C7: whenever the Whisper backend is in use and its transcription call
succeeds on an existing file, the result's `model_used` is the tag
`whisper-` followed by the model size and its confidence is exactly the
constant 0.95, regardless of what the backend returned. -/
theorem c7_whisper_confidence :
    ∀ (env : AudioEnv) (fs : FS) (path language : Str) (w : WhisperOut),
      env.use_whisper = true →
      env.whisper = PyResult.ok w →
      fsContains fs path = true →
      (transcribe_audio env fs path language).1.model_used =
        strL "whisper-" ++ env.model_size ∧
      (transcribe_audio env fs path language).1.confidence = 95/100 := by
  intro env fs path language w hw hok hex
  simp [transcribe_audio, transcribeWithWhisper, hw, hok, hex]

/-- C7 witness: a concrete successful Whisper transcription reports
`whisper-base` and confidence 0.95. -/
theorem c7_whisper_confidence_witness :
    (transcribe_audio envWhisperOk [strL "x.wav"] (strL "x.wav") (strL "en")).1.model_used =
      strL "whisper-" ++ strL "base" ∧
    (transcribe_audio envWhisperOk [strL "x.wav"] (strL "x.wav") (strL "en")).1.confidence =
      95/100 :=
  c7_whisper_confidence envWhisperOk [strL "x.wav"] (strL "x.wav") (strL "en")
    (WhisperOut.mk (strL "patient reports chest pain") none []) rfl rfl (by decide)

-- ---------------------------------------------------------------------
-- Claim C1
-- ---------------------------------------------------------------------

/-- C1 counterexample: a backend fault — the networked recognizer
unreachable and the offline recognizer also failing — is returned with
confidence 0.0 and a diagnostic text but with no `error` field populated,
so not every failure populates `error`. -/
theorem c1_backend_fault_no_error_field :
    (transcribe_audio envNetDown [strL "a.wav"] (strL "a.wav") (strL "en")).1.error = none ∧
    (transcribe_audio envNetDown [strL "a.wav"] (strL "a.wav") (strL "en")).1.confidence = 0 ∧
    (transcribe_audio envNetDown [strL "a.wav"] (strL "a.wav") (strL "en")).1.text =
      strL "Speech recognition service unavailable" := by
  decide

/-- C1 (amended): the transcription operations return (never raise), and
every failure — missing file, unsupported extension, missing microphone,
recording faults, and unintelligible audio (whose branch leaves the local
`model_used` unassigned, so the dict build raises and the catch-all
converts it) — is returned with `error` populated and confidence 0.0;
the one exception is the fallback path where the networked recognizer is
unreachable and the offline recognizer also fails, whose result carries
confidence 0.0 and a diagnostic text but no `error` field. -/
theorem c1_error_shapes :
    (∀ (env : AudioEnv) (fs : FS) (path language : Str),
      fsContains fs path = false →
      (transcribe_audio env fs path language).1.error =
        some (strL "Audio file not found: " ++ path) ∧
      (transcribe_audio env fs path language).1.confidence = 0 ∧
      (transcribe_audio env fs path language).1.text ≠ []) ∧
    (∀ (env : AudioEnv) (fs : FS) (uploaded : UploadedFile),
      supported_formats.contains (pyLower (pySplitextExt uploaded.name)) = false →
      (transcribe_uploaded_file env fs uploaded).1.error =
        some (strL "Unsupported file format: " ++ pyLower (pySplitextExt uploaded.name)) ∧
      (transcribe_uploaded_file env fs uploaded).1.confidence = 0) ∧
    (∀ (env : AudioEnv) (fs : FS),
      env.microphone_available = false →
      (record_and_transcribe env fs).1.error = some (strL "Microphone not available") ∧
      (record_and_transcribe env fs).1.confidence = 0) ∧
    (∀ (env : AudioEnv) (fs : FS) (m : Str),
      env.microphone_available = true →
      env.pyaudioInit = PyResult.ok () →
      env.record = PyResult.exn m →
      (record_and_transcribe env fs).1.error = some m ∧
      (record_and_transcribe env fs).1.confidence = 0) ∧
    (∀ (env : AudioEnv) (fs : FS) (path language : Str),
      pyEndsWith (pyLower path) (strL ".wav") = true →
      env.loadAudio = PyResult.ok () →
      env.google = GoogleOutcome.requestError →
      env.sphinx = SphinxOutcome.failure →
      (transcribeWithSR env fs path language).1.error = none ∧
      (transcribeWithSR env fs path language).1.confidence = 0 ∧
      (transcribeWithSR env fs path language).1.text ≠ []) ∧
    (∀ (env : AudioEnv) (fs : FS) (path language : Str),
      pyEndsWith (pyLower path) (strL ".wav") = true →
      env.loadAudio = PyResult.ok () →
      env.google = GoogleOutcome.unknownValue →
      (transcribeWithSR env fs path language).1.error ≠ none ∧
      (transcribeWithSR env fs path language).1.confidence = 0 ∧
      (transcribeWithSR env fs path language).1.model_used =
        strL "speech_recognition_error" ∧
      (transcribeWithSR env fs path language).1.text ≠ []) := by
  refine ⟨?_, ?_, ?_, ?_, ?_, ?_⟩
  · intro env fs path language h
    have hpre : strL "Error during transcription: " ≠ ([] : Str) := by decide
    refine ⟨by simp [transcribe_audio, h], by simp [transcribe_audio, h], ?_⟩
    simp [transcribe_audio, h, hpre]
  · intro env fs uploaded h
    have h2 : pyLower (pySplitextExt uploaded.name) ∉ supported_formats := by
      simpa using h
    exact ⟨by simp [transcribe_uploaded_file, h2], by simp [transcribe_uploaded_file, h2]⟩
  · intro env fs h
    exact ⟨by simp [record_and_transcribe, h], by simp [record_and_transcribe, h]⟩
  · intro env fs m hm hinit hrec
    exact ⟨by simp [record_and_transcribe, hm, hinit, hrec, recordingError],
      by simp [record_and_transcribe, hm, hinit, hrec, recordingError]⟩
  · intro env fs path language hEnd hLoad hG hS
    refine ⟨?_, ?_, ?_⟩ <;>
      simp [transcribeWithSR, transcribeWithSRBody, hEnd, hLoad, hG, hS]
    decide
  · intro env fs path language hEnd hLoad hG
    refine ⟨?_, ?_, ?_, ?_⟩ <;>
      simp [transcribeWithSR, transcribeWithSRBody, hEnd, hLoad, hG]
    decide

/-- C1 witness: recording with no microphone returns the structured
no-microphone error with confidence 0. -/
theorem c1_error_shapes_witness :
    (record_and_transcribe { baseAudioEnv with microphone_available := false } []).1.error =
      some (strL "Microphone not available") ∧
    (record_and_transcribe { baseAudioEnv with microphone_available := false } []).1.confidence
      = 0 :=
  c1_error_shapes.2.2.1 { baseAudioEnv with microphone_available := false } [] rfl

-- ---------------------------------------------------------------------
-- Claim C3
-- ---------------------------------------------------------------------

theorem pyLower_append (a b : Str) : pyLower (a ++ b) = pyLower a ++ pyLower b := by
  simp [pyLower]

theorem wav_suffix_ends (a : Str) :
    pyEndsWith (pyLower (a ++ strL ".wav")) (strL ".wav") = true := by
  rw [pyLower_append]
  have h4 : pyLower (strL ".wav") = strL ".wav" := by decide
  rw [h4]
  exact pyEndsWith_append _ _

theorem transcribeWithSR_fs (env : AudioEnv) (fs : FS) (p l : Str)
    (h : pyEndsWith (pyLower p) (strL ".wav") = true) :
    (transcribeWithSR env fs p l).2 = fs := by
  cases hL : env.loadAudio with
  | exn m => simp [transcribeWithSR, transcribeWithSRBody, h, hL]
  | ok u =>
    cases u
    cases hG : env.google with
    | success t => simp [transcribeWithSR, transcribeWithSRBody, h, hL, hG]
    | unknownValue => simp [transcribeWithSR, transcribeWithSRBody, h, hL, hG]
    | requestError =>
      cases hS : env.sphinx with
      | success t => simp [transcribeWithSR, transcribeWithSRBody, h, hL, hG, hS]
      | failure => simp [transcribeWithSR, transcribeWithSRBody, h, hL, hG, hS]
    | fault m => simp [transcribeWithSR, transcribeWithSRBody, h, hL, hG]

theorem transcribe_audio_fs (env : AudioEnv) (fs : FS) (p l : Str)
    (h : pyEndsWith (pyLower p) (strL ".wav") = true) :
    (transcribe_audio env fs p l).2 = fs := by
  by_cases hex : fsContains fs p = false
  · simp [transcribe_audio, hex]
  · cases hw : env.use_whisper with
    | true =>
      cases hws : env.whisper with
      | ok w => simp [transcribe_audio, transcribeWithWhisper, hex, hw, hws]
      | exn m =>
        simpa [transcribe_audio, transcribeWithWhisper, hex, hw, hws]
          using transcribeWithSR_fs env fs p l h
    | false =>
      simpa [transcribe_audio, hex, hw] using transcribeWithSR_fs env fs p l h

theorem mem_fsUnlinkIfExists {q p : Str} {l : FS} (h : q ∈ fsUnlinkIfExists p l) :
    q ∈ l ∧ q ≠ p := by
  unfold fsUnlinkIfExists at h
  by_cases hc : fsContains l p = true
  · rw [if_pos hc] at h
    unfold fsUnlink at h
    obtain ⟨hql, hq⟩ := List.mem_filter.mp h
    refine ⟨hql, ?_⟩
    simpa using hq
  · rw [if_neg hc] at h
    refine ⟨h, ?_⟩
    rintro rfl
    exact hc (by unfold fsContains; rw [List.any_eq_true]; exact ⟨q, h, by simp⟩)

theorem supported_ext_shape :
    ∀ ext ∈ supported_formats, ∃ r, ext = '.' :: r ∧ '.' ∉ r := by
  intro ext hm
  fin_cases hm
  · exact ⟨strL "wav", rfl, by decide⟩
  · exact ⟨strL "mp3", rfl, by decide⟩
  · exact ⟨strL "m4a", rfl, by decide⟩
  · exact ⟨strL "flac", rfl, by decide⟩
  · exact ⟨strL "ogg", rfl, by decide⟩
  · exact ⟨strL "mp4", rfl, by decide⟩
  · exact ⟨strL "avi", rfl, by decide⟩
  · exact ⟨strL "mov", rfl, by decide⟩
  · exact ⟨strL "webm", rfl, by decide⟩

/-- C3 (amended): every temporary file created by `transcribe_uploaded_file`
is deleted on every exit path (given the `tempfile` stem contains no dot,
as the `tmpXXXXXXXX` stems the library generates); the temporary WAV of
`record_and_transcribe` is deleted whenever the recording phase itself
succeeds — but a recording failure after the file is created leaves it on
disk (see the counterexample). -/
theorem c3_temp_file_cleanup :
    (∀ (env : AudioEnv) (fs : FS) (uploaded : UploadedFile),
      '.' ∉ env.tmpName →
      ∀ q ∈ (transcribe_uploaded_file env fs uploaded).2, q ∈ fs) ∧
    (∀ (env : AudioEnv) (fs : FS),
      env.record = PyResult.ok () →
      ∀ q ∈ (record_and_transcribe env fs).2, q ∈ fs) := by
  constructor
  · intro env fs uploaded htmp q hq
    obtain ⟨ext, hE⟩ : ∃ e, pyLower (pySplitextExt uploaded.name) = e := ⟨_, rfl⟩
    by_cases hsupp : ext ∈ supported_formats
    · obtain ⟨r, hr, hrdot⟩ := supported_ext_shape _ hsupp
      have hcont : supported_formats.contains ext = true := by simpa using hsupp
      have hrepl : pyReplace (env.tmpName ++ ext) ext (strL ".wav") =
          env.tmpName ++ strL ".wav" := by
        rw [hr]; exact pyReplace_ext htmp _
      by_cases hwav : ext = strL ".wav"
      · subst hwav
        have hta : (transcribe_audio env (fsCreate (env.tmpName ++ strL ".wav") fs)
            (env.tmpName ++ strL ".wav") (strL "en")).2 =
            fsCreate (env.tmpName ++ strL ".wav") fs :=
          transcribe_audio_fs _ _ _ _ (wav_suffix_ends env.tmpName)
        simp [transcribe_uploaded_file, hE, hcont, hta, hrepl] at hq
        obtain ⟨hq1, hne1⟩ := mem_fsUnlinkIfExists hq
        obtain ⟨hq2, hne2⟩ := mem_fsUnlinkIfExists hq1
        simp [fsCreate] at hq2
        rcases hq2 with rfl | hq3
        · exact absurd rfl hne2
        · exact hq3
      · cases hconv : env.convertEnhanced with
        | exn m =>
          simp [transcribe_uploaded_file, hE, hsupp, hcont, hwav, hconv] at hq
          obtain ⟨hq1, hne1⟩ := mem_fsUnlinkIfExists hq
          obtain ⟨hq2, hne2⟩ := mem_fsUnlinkIfExists hq1
          simp [fsCreate] at hq2
          rcases hq2 with rfl | hq3
          · exact absurd rfl hne2
          · exact hq3
        | ok u =>
          cases u
          have hta : (transcribe_audio env
              (fsCreate (env.tmpName ++ strL ".wav")
                (fsCreate (env.tmpName ++ ext) fs))
              (env.tmpName ++ strL ".wav") (strL "en")).2 =
              fsCreate (env.tmpName ++ strL ".wav")
                (fsCreate (env.tmpName ++ ext) fs) :=
            transcribe_audio_fs _ _ _ _ (wav_suffix_ends env.tmpName)
          simp [transcribe_uploaded_file, hE, hsupp, hcont, hwav, hconv, hrepl, hta] at hq
          obtain ⟨hq1, hne1⟩ := mem_fsUnlinkIfExists hq
          obtain ⟨hq2, hne2⟩ := mem_fsUnlinkIfExists hq1
          simp [fsCreate] at hq2
          rcases hq2 with rfl | hq3
          · exact absurd rfl hne1
          · rcases hq3 with rfl | hq4
            · exact absurd rfl hne2
            · exact hq4
    · simp [transcribe_uploaded_file, hE, hsupp] at hq
      exact hq
  · intro env fs hrec q hq
    by_cases hmic : env.microphone_available = false
    · simp [record_and_transcribe, hmic] at hq
      exact hq
    · cases hinit : env.pyaudioInit with
      | exn m =>
        simp [record_and_transcribe, hmic, hinit] at hq
        exact hq
      | ok u =>
        cases u
        have hta : (transcribe_audio env
            (fsCreate (env.tmpName ++ strL ".wav") fs)
            (env.tmpName ++ strL ".wav") (strL "en")).2 =
            fsCreate (env.tmpName ++ strL ".wav") fs :=
          transcribe_audio_fs _ _ _ _ (wav_suffix_ends env.tmpName)
        simp [record_and_transcribe, hmic, hinit, hrec, hta] at hq
        obtain ⟨hq1, hne1⟩ := mem_fsUnlinkIfExists hq
        simp [fsCreate] at hq1
        rcases hq1 with rfl | hq2
        · exact absurd rfl hne1
        · exact hq2

/-- C3 counterexample: a recording failure after the temporary WAV is
created returns the structured error result but leaves the temporary file
on disk when the call returns. -/
theorem c3_recording_failure_leak :
    fsContains (record_and_transcribe envRecFail []).2 (strL "/tmp/tmpaudio.wav") = true ∧
    (record_and_transcribe envRecFail []).1.error =
      some (strL "no default input device") := by
  decide

/-- C3 witness: a concrete upload transcription starting from an empty
filesystem leaves the filesystem empty. -/
theorem c3_temp_file_cleanup_witness :
    (transcribe_uploaded_file envUpload [] (UploadedFile.mk (strL "visit.mp3"))).2 = [] :=
  List.eq_nil_iff_forall_not_mem.mpr (fun q hq =>
    absurd (c3_temp_file_cleanup.1 envUpload [] (UploadedFile.mk (strL "visit.mp3"))
      (by decide) q hq) (List.not_mem_nil q))

-- ---------------------------------------------------------------------
-- Claim C9
-- ---------------------------------------------------------------------

/-- C9: `generate_consultation_report` and `extract_icd_cpt_codes` total
out their case analysis — on a failed chain invocation each returns the
literal inline error string (prefixed `Error generating report:` or
`Error extracting medical codes:`), on success the chain output, and an
uninitialized ICD chain yields the fixed unavailability note — so no
failure propagates to the caller. -/
theorem c9_generation_error_strings :
    (∀ (env : ModelEnv) (i : ReportInputs) (m : Str),
      env.chain (reportInputsDict i) = PyResult.exn m →
      generate_consultation_report env i = strL "Error generating report: " ++ m) ∧
    (∀ (env : ModelEnv) (i : ReportInputs) (r : Str),
      env.chain (reportInputsDict i) = PyResult.ok r →
      generate_consultation_report env i = r) ∧
    (∀ (env : ModelEnv) (t m : Str),
      env.icdAvailable = true →
      env.icdChain t = PyResult.exn m →
      extract_icd_cpt_codes env t = strL "Error extracting medical codes: " ++ m) ∧
    (∀ (env : ModelEnv) (t : Str),
      env.icdAvailable = false →
      extract_icd_cpt_codes env t =
        strL "ICD/CPT extraction not available - template file missing") := by
  refine ⟨fun env i m h => ?_, fun env i r h => ?_, fun env t m ha h => ?_,
    fun env t ha => ?_⟩
  · simp [generate_consultation_report, h]
  · simp [generate_consultation_report, h]
  · simp [extract_icd_cpt_codes, ha, h]
  · simp [extract_icd_cpt_codes, ha]

/-- C9 witness: with the chain raising, both functions return the literal
inline error strings. -/
theorem c9_generation_error_strings_witness :
    generate_consultation_report envModelDown emptyReportInputs =
      strL "Error generating report: " ++ strL "connection refused" ∧
    extract_icd_cpt_codes envModelDown (strL "report") =
      strL "Error extracting medical codes: " ++ strL "connection refused" :=
  ⟨c9_generation_error_strings.1 envModelDown emptyReportInputs
      (strL "connection refused") rfl,
   c9_generation_error_strings.2.2.1 envModelDown (strL "report")
      (strL "connection refused") rfl rfl⟩

-- ---------------------------------------------------------------------
-- Claim C8
-- ---------------------------------------------------------------------

/-- C8 counterexample: exporting a form whose visit date is 2024-01-15 and
reloading the document does not reproduce the date field value — the
reload yields the ISO string rendering, not the original date value, so
not every field is reproduced identically. -/
theorem c8_date_not_reproduced :
    reloadedFieldValue
        (full_report_data
          (PatientInfo.mk [] [] (PyDate.mk 2024 1 15) [] [])
          (MedicalHistory.mk [] [] [] [] [] [] [] [] [] [])
          (ClinicalFindings.mk [] [] [] [])
          [] [] (strL "2024-01-15T12:00:00"))
        (strL "patient_info") (strL "date_of_visit") ≠
      some (FieldValue.date (PyDate.mk 2024 1 15)) ∧
    reloadedFieldValue
        (full_report_data
          (PatientInfo.mk [] [] (PyDate.mk 2024 1 15) [] [])
          (MedicalHistory.mk [] [] [] [] [] [] [] [] [] [])
          (ClinicalFindings.mk [] [] [] [])
          [] [] (strL "2024-01-15T12:00:00"))
        (strL "patient_info") (strL "date_of_visit") =
      some (FieldValue.str (strL "2024-01-15")) := by
  constructor
  · decide
  · decide

/-- C8 (amended): reloading the exported JSON document reproduces every
string-valued form field verbatim, and reproduces `date_of_visit` as its
ISO-8601 string rendering rather than as a date value; only the
generation timestamp is ignored. -/
theorem c8_round_trip_fields :
    ∀ (p : PatientInfo) (h : MedicalHistory) (c : ClinicalFindings)
      (report codes ts : Str),
      reloadField (full_report_data p h c report codes ts)
          (strL "patient_info") (strL "sample_name") = some (JValue.jstr p.sample_name) ∧
      reloadField (full_report_data p h c report codes ts)
          (strL "patient_info") (strL "description") = some (JValue.jstr p.description) ∧
      reloadField (full_report_data p h c report codes ts)
          (strL "patient_info") (strL "date_of_visit") =
        some (JValue.jstr (pyDateStr p.date_of_visit)) ∧
      reloadField (full_report_data p h c report codes ts)
          (strL "patient_info") (strL "age") = some (JValue.jstr p.age) ∧
      reloadField (full_report_data p h c report codes ts)
          (strL "patient_info") (strL "gender") = some (JValue.jstr p.gender) ∧
      reloadField (full_report_data p h c report codes ts)
          (strL "medical_history") (strL "reason_for_consultation") =
        some (JValue.jstr h.reason_for_consultation) ∧
      reloadField (full_report_data p h c report codes ts)
          (strL "medical_history") (strL "hpi") = some (JValue.jstr h.hpi) ∧
      reloadField (full_report_data p h c report codes ts)
          (strL "medical_history") (strL "past_medical_history") =
        some (JValue.jstr h.past_medical_history) ∧
      reloadField (full_report_data p h c report codes ts)
          (strL "medical_history") (strL "past_surgical_history") =
        some (JValue.jstr h.past_surgical_history) ∧
      reloadField (full_report_data p h c report codes ts)
          (strL "medical_history") (strL "home_medications") =
        some (JValue.jstr h.home_medications) ∧
      reloadField (full_report_data p h c report codes ts)
          (strL "medical_history") (strL "current_medications") =
        some (JValue.jstr h.current_medications) ∧
      reloadField (full_report_data p h c report codes ts)
          (strL "medical_history") (strL "allergies") = some (JValue.jstr h.allergies) ∧
      reloadField (full_report_data p h c report codes ts)
          (strL "medical_history") (strL "review_of_systems") =
        some (JValue.jstr h.review_of_systems) ∧
      reloadField (full_report_data p h c report codes ts)
          (strL "medical_history") (strL "family_history") =
        some (JValue.jstr h.family_history) ∧
      reloadField (full_report_data p h c report codes ts)
          (strL "medical_history") (strL "social_history") =
        some (JValue.jstr h.social_history) ∧
      reloadField (full_report_data p h c report codes ts)
          (strL "clinical_findings") (strL "physical_exam") =
        some (JValue.jstr c.physical_exam) ∧
      reloadField (full_report_data p h c report codes ts)
          (strL "clinical_findings") (strL "lab_results") =
        some (JValue.jstr c.lab_results) ∧
      reloadField (full_report_data p h c report codes ts)
          (strL "clinical_findings") (strL "imaging_findings") =
        some (JValue.jstr c.imaging_findings) ∧
      reloadField (full_report_data p h c report codes ts)
          (strL "clinical_findings") (strL "assessment_and_plan") =
        some (JValue.jstr c.assessment_and_plan) ∧
      jGet (strL "generated_report") (full_report_data p h c report codes ts) =
        some (JValue.jstr report) ∧
      jGet (strL "medical_codes") (full_report_data p h c report codes ts) =
        some (JValue.jstr codes) := by
  intro p h c report codes ts
  exact ⟨rfl, rfl, rfl, rfl, rfl, rfl, rfl, rfl, rfl, rfl, rfl, rfl, rfl, rfl, rfl,
    rfl, rfl, rfl, rfl, rfl, rfl⟩
